import Mathlib

/-
Shallow embedding of the OpenMCActivationStudy repository:
  SphericalShell/build_shell_model.py and SphericalShell/plot_shell_results.py.
Each Lean definition transliterates the corresponding Python function; the
external engine's constructors (openmc.Material, openmc.Sphere, openmc.Cell,
openmc.Source, openmc.Settings, openmc tallies, numpy's linspace/logspace,
matplotlib calls) are modelled as record builders holding exactly the data the
scripts pass to them. Numeric values use exact rationals (reals where a power
with non-integer exponent is needed), since the scripts do only literal
parameter marshaling.
-/

namespace OpenMCStudy

/- ================= build_shell_model.py : materials ================= -/

/-- openmc.Material as the script uses it: a name, the element fractions added
by add_element, and the density set by set_density (units, value). -/
structure Material where
  name : String
  elements : List (String × ℚ)
  density : Option (String × ℚ)
deriving DecidableEq

instance : Inhabited Material := ⟨{ name := "", elements := [], density := none }⟩

/-- Material.add_element(element, fraction). -/
def Material.add_element (m : Material) (el : String) (frac : ℚ) : Material :=
  { m with elements := m.elements ++ [(el, frac)] }

/-- Material.set_density(units, value). -/
def Material.set_density (m : Material) (units : String) (d : ℚ) : Material :=
  { m with density := some (units, d) }

/-- create_materials(element, density): one material named W_Shell with the
given element at fraction 1.0 and mass density in g/cm3; returned as the
one-element Materials list. -/
def create_materials (element : String) (density : ℚ) : List Material :=
  let W : Material := { name := "W_Shell", elements := [], density := none }
  let W := W.add_element element 1.0
  let W := W.set_density "g/cm3" density
  [W]

/- ================= build_shell_model.py : geometry ================= -/

/-- openmc.Sphere(r=..., boundary_type=...); the engine default boundary type
is transmission. -/
structure Sphere where
  r : ℚ
  boundary_type : String
deriving DecidableEq

/-- CSG region expressions exactly as the script writes them. `surf` records a
bare Surface used directly as a region operand (as in `R_1 & -R_2`), which is
distinct from the half-spaces `-S` (below) and `+S` (above). -/
inductive RegionExpr where
  | surf (s : Sphere)
  | inside (s : Sphere)
  | outside (s : Sphere)
  | inter (a b : RegionExpr)
deriving DecidableEq

/-- openmc.Cell(fill=..., region=...). -/
structure Cell where
  fill : Option Material
  region : RegionExpr
deriving DecidableEq

/-- openmc.Geometry built from a cell list. -/
structure Geometry where
  cells : List Cell
deriving DecidableEq

/-- A spatial point, with rational coordinates so membership is decidable. -/
abbrev Point : Type := ℚ × ℚ × ℚ

/-- Squared distance from the origin. -/
def normSq (p : Point) : ℚ := p.1 ^ 2 + p.2.1 ^ 2 + p.2.2 ^ 2

/-- Volume membership of a point in a region expression. The half-space -S is
the open ball interior, +S the exterior. A bare surface is not a half-space
and denotes no volume (the engine rejects a Surface used as a region operand
with a TypeError); membership is undefined (`none`) for any expression that
uses one. -/
def RegionExpr.contains : RegionExpr → Point → Option Bool
  | .surf _, _ => none
  | .inside s, p => some (decide (normSq p < s.r ^ 2))
  | .outside s, p => some (decide (s.r ^ 2 < normSq p))
  | .inter a b, p =>
      match a.contains p, b.contains p with
      | some x, some y => some (x && y)
      | _, _ => none

/-- create_geometry(r_1, r_2, shell_mat), transliterated: inner sphere R_1
(default transmission boundary), outer sphere R_2 with vacuum boundary, a void
cell with region -R_1, and a shell cell whose region is written
`R_1 & -R_2` — the bare surface R_1 intersected with -R_2 (the script omits
the `+` on R_1). -/
def create_geometry (r_1 r_2 : ℚ) (shell_mat : Material) : Geometry :=
  let R_1 : Sphere := { r := r_1, boundary_type := "transmission" }
  let R_2 : Sphere := { r := r_2, boundary_type := "vacuum" }
  let Void : Cell := { fill := none, region := .inside R_1 }
  let Shell : Cell := { fill := some shell_mat, region := .inter (.surf R_1) (.inside R_2) }
  { cells := [Void, Shell] }

/- ================= build_shell_model.py : source ================= -/

/-- openmc.stats spatial distributions used by the script. -/
inductive SpaceDist where
  | point (xyz : ℚ × ℚ × ℚ)
deriving DecidableEq

/-- Angular distributions; the engine's Source constructor defaults to an
isotropic angular distribution when no angle argument is passed. -/
inductive AngleDist where
  | isotropic
deriving DecidableEq

/-- openmc.stats.Discrete(values, probabilities), as (value, probability)
pairs. -/
inductive EnergyDist where
  | discrete (pairs : List (ℚ × ℚ))
deriving DecidableEq

/-- openmc.Source with the fields the script sets. -/
structure Source where
  space : SpaceDist
  angle : AngleDist
  energy : EnergyDist
  strength : ℚ
  particle : String
deriving DecidableEq

/-- openmc.Source(space=..., energy=..., strength=..., particle=...): the
script omits the angle argument, so the engine default (isotropic) applies. -/
def Source.make (space : SpaceDist) (energy : EnergyDist) (strength : ℚ)
    (particle : String) : Source :=
  { space := space, angle := .isotropic, energy := energy,
    strength := strength, particle := particle }

/-- create_isotropic_fusion_point_source(): point source at the origin with a
discrete 14 MeV energy line of probability 1.0, strength 1.0, neutrons. -/
def create_isotropic_fusion_point_source : Source :=
  Source.make (.point (0.0, 0.0, 0.0)) (.discrete [(14e6, 1.0)]) 1.0 "neutron"

/- ================= build_shell_model.py : settings ================= -/

/-- openmc.Settings with the fields the script sets. -/
structure Settings where
  batches : ℕ
  particles : ℕ
  run_mode : String
deriving DecidableEq

/-- setup_problem(batches, particles_per_batch); the Python defaults are
batches=10, particles_per_batch=100000 and build_shell_model calls it with no
arguments, so the call site below passes 10 and 100000. -/
def setup_problem (batches particles_per_batch : ℕ) : Settings :=
  { batches := batches, particles := particles_per_batch,
    run_mode := "fixed source" }

/- ================= build_shell_model.py : tallies ================= -/

/-- numpy.linspace(start, stop, num): num evenly spaced samples from start to
stop inclusive, i.e. start + i*(stop-start)/(num-1) for i = 0, ..., num-1
(num = 1 gives just [start]). -/
def linspace (start stop : ℚ) (num : ℕ) : List ℚ :=
  if num = 0 then []
  else if num = 1 then [start]
  else
    let step := (stop - start) / ((num - 1 : ℕ) : ℚ)
    (List.range num).map fun (i : ℕ) => start + step * (i : ℚ)

/-- numpy.logspace(start, stop, num): 10 raised to each sample of
linspace(start, stop, num) — the arguments are base-10 EXPONENTS, not bounds.
Modelled over exact reals (float64 would overflow to inf past exponent
ca. 308). -/
noncomputable def logspace (start stop : ℚ) (num : ℕ) : List ℝ :=
  (linspace start stop num).map fun (e : ℚ) => (10 : ℝ) ^ (e : ℝ)

/-- Tally filters as the script builds them: a cell filter over a cell list,
or an energy filter over a list of bin-edge energies. -/
inductive TallyFilter where
  | cellFilter (cells : List Cell)
  | energyFilter (values : List ℝ)

/-- openmc.Tally with the fields the script sets. -/
structure Tally where
  name : String
  scores : List String
  filters : List TallyFilter

/-- create_tallies(cell), transliterated: e_min = 5e2, e_max = 14.001e6,
groups = 500, energies = np.logspace(e_min, e_max, groups + 1); a total
neutron tally (flux, elastic, absorption over the cell filter) and a
Flux spectrum tally (flux over energy filter then cell filter). -/
noncomputable def create_tallies (cell : Cell) : List Tally :=
  let cell_filter := TallyFilter.cellFilter [cell]
  let energies := logspace 5e2 14.001e6 (500 + 1)
  let energy_filter := TallyFilter.energyFilter energies
  let neutron_tally : Tally :=
    { name := "Total neutron tally",
      scores := ["flux", "elastic", "absorption"],
      filters := [cell_filter] }
  let spectrum_tally : Tally :=
    { name := "Flux spectrum",
      scores := ["flux"],
      filters := [energy_filter, cell_filter] }
  [neutron_tally, spectrum_tally]

/- ================= build_shell_model.py : parse_args ================= -/

/-- The public names the Python argparse module actually exposes. The class
the script needs is ArgumentParser; there is no attribute named Parser. -/
def argparse_attrs : List String :=
  ["ArgumentParser", "ArgumentError", "ArgumentTypeError", "FileType",
   "HelpFormatter", "ArgumentDefaultsHelpFormatter",
   "RawDescriptionHelpFormatter", "RawTextHelpFormatter",
   "MetavarTypeHelpFormatter", "Namespace", "Action", "SUPPRESS"]

/-- The parsed argument namespace with the four declared options (each dest is
the long option name). -/
structure Args where
  element : String
  density : ℚ
  inner_radius : ℚ
  shell_thickness : ℚ
deriving DecidableEq

/-- parse_args(), transliterated: the first statement evaluates
argparse.Parser(), an attribute lookup on the argparse module, which raises
AttributeError since the module has no such name. The ok branch (unreachable
for the real module surface) carries the declared defaults: element W,
density 19.28, inner_radius 1000, shell_thickness 5 (actual command-line
overriding is dead code and not modelled further). -/
def parse_args (argv : List String) : Except String Args :=
  if argparse_attrs.contains "Parser" then
    .ok { element := "W", density := 19.28, inner_radius := 1000,
          shell_thickness := 5 }
  else
    .error "AttributeError: module argparse has no attribute Parser"

/-- The attributes the parsed Namespace would carry: one per declared option
dest. build_shell_model reads args.thickness, which is not among them (the
declared option is shell_thickness). -/
def namespace_attrs : List String :=
  ["element", "density", "inner_radius", "shell_thickness"]

/-- The attribute access args.thickness in build_shell_model: an AttributeError
on the Namespace, since the declared dest is shell_thickness. -/
def args_thickness (a : Args) : Except String ℚ :=
  if namespace_attrs.contains "thickness" then .ok a.shell_thickness
  else .error "AttributeError: Namespace object has no attribute thickness"

/- ================= build_shell_model.py : build_shell_model ============ -/

/-- The objects build_shell_model would construct, in statement order. -/
inductive BuiltObject where
  | materials | geometry | source | tallies | settings
deriving DecidableEq

/-- The statements of build_shell_model's body, in source order: the call to
parse_args and the five construction calls. The script contains no further
statement: no Model construction, no export of the objects, no run call, so
no handoff step appears in this list. -/
inductive BuildStep where
  | callParseArgs | callCreateMaterials | callCreateGeometry
  | callCreateSource | callCreateTallies | callSetupProblem
  | handoffToEngine
deriving DecidableEq

/-- The statement list of build_shell_model as written. -/
def build_shell_model_steps : List BuildStep :=
  [.callParseArgs, .callCreateMaterials, .callCreateGeometry,
   .callCreateSource, .callCreateTallies, .callSetupProblem]

/-- build_shell_model(), transliterated statement by statement. The result is
the list of objects successfully constructed (all bound to locals and never
exported) together with the error that aborted the run, if any. materials[0]
is head of the one-element list; geometry[1] is modelled charitably as the
second cell of the geometry (the shell cell the tally is meant for). Every
run aborts inside parse_args, so the later statements are dead code. -/
noncomputable def build_shell_model (argv : List String) :
    List BuiltObject × Option String :=
  match parse_args argv with
  | .error e => ([], some e)
  | .ok args =>
    let materials := create_materials args.element args.density
    match args_thickness args with
    | .error e => ([.materials], some e)
    | .ok t =>
      let geometry :=
        create_geometry args.inner_radius (args.inner_radius + t)
          materials.headI
      let source := create_isotropic_fusion_point_source
      match geometry.cells[1]? with
      | none => ([.materials, .geometry, .source], some "IndexError")
      | some c =>
        let tallies := create_tallies c
        let settings := setup_problem 10 100000
        ([.materials, .geometry, .source, .tallies, .settings], none)

/-- File reads performed by build_shell_model.py: the script contains no file
operation at all (no open, no export to XML, no engine invocation). -/
def build_reads : List String := []

/-- File writes performed by build_shell_model.py: none (see build_reads). -/
def build_writes : List String := []

/- ================= plot_shell_results.py : statepoint model ============ -/

/-- A tally filter as stored in a statepoint file: an energy filter exposes
the (lo, hi) bounds of each bin through its bins array, a cell filter a list
of cell ids. -/
inductive SPFilter where
  | energy (bins : List (ℚ × ℚ))
  | cell (ids : List ℕ)
deriving DecidableEq

/-- A tally as stored in a statepoint file: its name, its filters, and its
accumulated mean values (a 2-D array: one row per filter bin combination). -/
structure SPTally where
  name : String
  filters : List SPFilter
  mean : List (List ℚ)
deriving DecidableEq

/-- A statepoint (result) file: the tallies it holds. -/
structure StatePointFile where
  tallies : List SPTally
deriving DecidableEq

/-- The filesystem the plotting script runs against: named statepoint files. -/
def FileSystem : Type := List (String × StatePointFile)

/-- Open a file by name. -/
def lookupFile (fs : FileSystem) (fname : String) : Option StatePointFile :=
  (fs.find? fun e => e.1 == fname).map fun e => e.2

/-- StatePoint.get_tally(name=...): the first tally with the given name;
the engine raises LookupError when none matches. -/
def get_tally (sp : StatePointFile) (tname : String) : Option SPTally :=
  sp.tallies.find? fun t => t.name == tname

/-- The column bins[:, 0] of a filter's bins array: for an energy filter the
lower bound of each bin; a cell filter's bins are one-dimensional, so the
column index fails there. -/
def SPFilter.bins_col0 : SPFilter → Except String (List ℚ)
  | .energy bins => .ok (bins.map fun b => b.1)
  | .cell _ => .error "IndexError: too many indices for array"

/-- numpy ravel on the 2-D mean array: flatten, preserving order, changing
nothing else. -/
def ravel (m : List (List ℚ)) : List ℚ := m.flatten

/- ================= plot_shell_results.py : script ================= -/

/-- The externally visible actions the plotting script performs, in order:
opening the statepoint file, looking up a tally, the matplotlib calls, saving
the figure, showing it. -/
inductive PlotAction where
  | openFile (fname : String)
  | getTallyByName (tname : String)
  | loglogStep (energies flux : List ℚ) (drawstyle : String)
  | setXLabel (label : String)
  | setYLabel (label : String)
  | gridBoth
  | savefig (fname : String)
  | showFigure
deriving DecidableEq

/-- extract_flux_spectrum(), transliterated: open the fixed file name
statepoint.10.h5, get the tally named Flux spectrum, take the lower bin edges
of filters[0] as energies and the raveled mean values as flux. Returns the
action trace performed so far together with the result or the raised error. -/
def extract_flux_spectrum (fs : FileSystem) :
    List PlotAction × Except String (List ℚ × List ℚ) :=
  match lookupFile fs "statepoint.10.h5" with
  | none => ([.openFile "statepoint.10.h5"],
             .error "FileNotFoundError: statepoint.10.h5")
  | some sp =>
    match get_tally sp "Flux spectrum" with
    | none => ([.openFile "statepoint.10.h5", .getTallyByName "Flux spectrum"],
               .error "LookupError: no tally with name Flux spectrum")
    | some t =>
      let tr := [PlotAction.openFile "statepoint.10.h5",
                 PlotAction.getTallyByName "Flux spectrum"]
      match t.filters[0]? with
      | none => (tr, .error "IndexError: list index out of range")
      | some f0 =>
        match f0.bins_col0 with
        | .error e => (tr, .error e)
        | .ok energies => (tr, .ok (energies, ravel t.mean))

/-- generate_plot(energies, flux): the matplotlib calls, in order — a log-log
plot with drawstyle steps-post, axis labels, and a grid on both tick kinds. -/
def generate_plot (energies flux : List ℚ) : List PlotAction :=
  [.loglogStep energies flux "steps-post",
   .setXLabel "Energy [eV]",
   .setYLabel "Flux [neutron-cm/source]",
   .gridBoth]

/-- plot_shell_results(): extract the spectrum, generate the plot, save it to
neutron_flux_v_energy.png and show it; an exception from the extraction
aborts the script before any plotting call. Returns the action trace and the
propagated error, if any. -/
def plot_shell_results (fs : FileSystem) : List PlotAction × Option String :=
  match extract_flux_spectrum fs with
  | (tr, .error e) => (tr, some e)
  | (tr, .ok (energies, flux)) =>
      (tr ++ generate_plot energies flux ++
        [.savefig "neutron_flux_v_energy.png", .showFigure], none)

/-- The file names the plotting script reads: the openFile actions of its
trace. -/
def plot_reads (fs : FileSystem) : List String :=
  (plot_shell_results fs).1.filterMap fun a =>
    match a with
    | .openFile f => some f
    | _ => none

/-- The file names the plotting script writes: the savefig actions of its
trace. -/
def plot_writes (fs : FileSystem) : List String :=
  (plot_shell_results fs).1.filterMap fun a =>
    match a with
    | .savefig f => some f
    | _ => none

/- ================= concrete sample data ================= -/

/-- A sample Flux spectrum tally: two energy bins and their mean fluxes. -/
def sample_tally : SPTally :=
  { name := "Flux spectrum",
    filters := [SPFilter.energy [(1, 2), (2, 4)]],
    mean := [[5], [7]] }

/-- A sample statepoint holding the sample tally. -/
def sample_statepoint : StatePointFile := { tallies := [sample_tally] }

/-- A sample filesystem where statepoint.10.h5 holds the sample statepoint. -/
def sample_fs : FileSystem := [("statepoint.10.h5", sample_statepoint)]

/-- A statepoint with no tallies at all. -/
def sample_statepoint_empty : StatePointFile := { tallies := [] }

/-- A filesystem whose statepoint.10.h5 has no Flux spectrum tally. -/
def sample_fs_no_tally : FileSystem :=
  [("statepoint.10.h5", sample_statepoint_empty)]

/-- A filesystem holding only a file with a different name. -/
def sample_fs_other_name : FileSystem := [("other.h5", sample_statepoint)]

/- ==================== theorems ==================== -/

/-- Claim C7: for every element symbol and density, create_materials returns a
materials collection containing exactly one material, named W_Shell, composed
of the given element at fraction 1.0 and with its mass density set to the
given value in g/cm3. -/
theorem create_materials_single_w_shell (element : String) (density : ℚ) :
    (create_materials element density).length = 1 ∧
    (create_materials element density).map Material.name = ["W_Shell"] ∧
    (create_materials element density).map Material.elements =
      [[(element, 1.0)]] ∧
    (create_materials element density).map Material.density =
      [some ("g/cm3", density)] :=
  ⟨rfl, rfl, rfl, rfl⟩

/-- Claim C3: create_isotropic_fusion_point_source returns a neutron source at
the origin whose angular distribution is isotropic (the engine default, as the
script passes no angle) and whose energy distribution assigns probability 1.0
to the single energy 14e6 eV, with strength 1.0. -/
theorem isotropic_fusion_point_source_spec :
    create_isotropic_fusion_point_source.particle = "neutron" ∧
    create_isotropic_fusion_point_source.space = .point (0.0, 0.0, 0.0) ∧
    create_isotropic_fusion_point_source.angle = .isotropic ∧
    create_isotropic_fusion_point_source.energy = .discrete [(14e6, 1.0)] ∧
    create_isotropic_fusion_point_source.strength = 1.0 :=
  ⟨rfl, rfl, rfl, rfl, rfl⟩

/-- Claim C5: for every command-line input, parse_args raises AttributeError
(argparse exposes no attribute named Parser), so build_shell_model never
completes and constructs none of the five objects. -/
theorem build_shell_model_always_raises (argv : List String) :
    parse_args argv =
      .error "AttributeError: module argparse has no attribute Parser" ∧
    build_shell_model argv =
      ([], some "AttributeError: module argparse has no attribute Parser") :=
  ⟨rfl, rfl⟩

/-- Claim C1: contrary to the spec, build_shell_model performs no handoff to
the external engine: its statement list contains no handoff step (no export,
Model construction, or run call), and every invocation aborts inside
parse_args with no object constructed. -/
theorem build_shell_model_performs_no_handoff (argv : List String) :
    BuildStep.handoffToEngine ∉ build_shell_model_steps ∧
    (build_shell_model argv).1 = [] ∧
    (build_shell_model argv).2 =
      some "AttributeError: module argparse has no attribute Parser" :=
  ⟨by decide, rfl, rfl⟩

/-- Claim C2: contrary to the spec and the docstring, the shell cell written
by create_geometry does not cover the volume between the two spheres: its
region is the bare inner surface R_1 intersected with -R_2 (the script omits
the + on R_1), so the point (3/2, 0, 0), which lies strictly between radii 1
and 2, is not a member of the constructed shell region (its membership is not
`some true`; the engine rejects the expression outright). The void cell and
the vacuum outer boundary are as described. -/
theorem create_geometry_shell_region_bug :
    (create_geometry 1 2 (create_materials "W" 19.28).headI).cells.map Cell.fill
      = [none, some (create_materials "W" 19.28).headI] ∧
    (create_geometry 1 2 (create_materials "W" 19.28).headI).cells.map
        Cell.region
      = [RegionExpr.inside { r := 1, boundary_type := "transmission" },
         RegionExpr.inter
           (RegionExpr.surf { r := 1, boundary_type := "transmission" })
           (RegionExpr.inside { r := 2, boundary_type := "vacuum" })] ∧
    RegionExpr.contains
      (RegionExpr.inter
        (RegionExpr.surf { r := 1, boundary_type := "transmission" })
        (RegionExpr.inside { r := 2, boundary_type := "vacuum" }))
      (3/2, 0, 0) ≠ some true ∧
    1 < normSq (3/2, 0, 0) ∧ normSq (3/2, 0, 0) < 4 := by
  refine ⟨rfl, rfl, by decide, by norm_num [normSq], by norm_num [normSq]⟩

/-- For two or more samples, linspace starts at its start argument. -/
theorem linspace_head (start stop : ℚ) (n : ℕ) :
    (linspace start stop (n + 2)).head? = some start := by
  unfold linspace
  rw [if_neg (by omega), if_neg (by omega), List.range_succ_eq_map]
  simp

/-- The energy grid built by create_tallies has 501 entries. -/
theorem logspace_fusion_grid_length :
    (logspace 5e2 14.001e6 (500 + 1)).length = 501 := by
  rw [logspace, List.length_map, linspace]
  rw [if_neg (by omega), if_neg (by omega), List.length_map,
    List.length_range]

/-- The first entry of the energy grid built by create_tallies is 10 to the
power 5e2: numpy.logspace exponentiates its arguments. -/
theorem logspace_fusion_grid_head :
    (logspace 5e2 14.001e6 (500 + 1)).head? =
      some ((10 : ℝ) ^ ((5e2 : ℚ) : ℝ)) := by
  have h : (linspace 5e2 14.001e6 (500 + 1)).head? = some (5e2 : ℚ) :=
    linspace_head 5e2 14.001e6 499
  unfold logspace
  rw [List.head?_map, h]
  rfl

/-- Ten to the power 500 is not 500. -/
theorem ten_rpow_five_hundred_ne :
    (10 : ℝ) ^ ((5e2 : ℚ) : ℝ) ≠ (5e2 : ℝ) := by
  have hc : ((5e2 : ℚ) : ℝ) = ((500 : ℕ) : ℝ) := by norm_num
  have h5 : (5e2 : ℝ) = 500 := by norm_num
  rw [hc, h5, Real.rpow_natCast]
  have hlt : (500 : ℝ) < (10 : ℝ) ^ (500 : ℕ) := by
    calc (500 : ℝ) < (10 : ℝ) ^ (3 : ℕ) := by norm_num
    _ ≤ (10 : ℝ) ^ (500 : ℕ) := pow_le_pow_right₀ (by norm_num) (by norm_num)
  exact ne_of_gt hlt

/-- Claim C6: the energy filter of the Flux spectrum tally does hold 501 bin
edges, but contrary to the claim its smallest edge is 10 to the power 5e2, not
5e2 eV: the script passes the bounds themselves, rather than their base-10
logarithms, as the exponent arguments of numpy.logspace. -/
theorem create_tallies_energy_grid_bug (cell : Cell) :
    (create_tallies cell).map Tally.name =
      ["Total neutron tally", "Flux spectrum"] ∧
    (create_tallies cell).map Tally.filters =
      [[TallyFilter.cellFilter [cell]],
       [TallyFilter.energyFilter (logspace 5e2 14.001e6 (500 + 1)),
        TallyFilter.cellFilter [cell]]] ∧
    (logspace 5e2 14.001e6 (500 + 1)).length = 501 ∧
    (logspace 5e2 14.001e6 (500 + 1)).head? =
      some ((10 : ℝ) ^ ((5e2 : ℚ) : ℝ)) ∧
    (10 : ℝ) ^ ((5e2 : ℚ) : ℝ) ≠ (5e2 : ℝ) :=
  ⟨rfl, rfl, logspace_fusion_grid_length, logspace_fusion_grid_head,
   ten_rpow_five_hundred_ne⟩

/-- Claim C4: for every filesystem whose statepoint.10.h5 opens onto a file
holding a Flux spectrum tally whose first filter is an energy filter,
plot_shell_results opens that file, looks up exactly that one tally, draws one
log-log step plot of the raveled mean flux against the lower bin edges, and
saves it to neutron_flux_v_energy.png. -/
theorem plot_shell_results_pipeline (fs : FileSystem) (sp : StatePointFile)
    (t : SPTally) (bins : List (ℚ × ℚ)) (rest : List SPFilter)
    (hfile : lookupFile fs "statepoint.10.h5" = some sp)
    (htally : get_tally sp "Flux spectrum" = some t)
    (hfilters : t.filters = SPFilter.energy bins :: rest) :
    plot_shell_results fs =
      ([.openFile "statepoint.10.h5", .getTallyByName "Flux spectrum",
        .loglogStep (bins.map fun b => b.1) (ravel t.mean) "steps-post",
        .setXLabel "Energy [eV]", .setYLabel "Flux [neutron-cm/source]",
        .gridBoth, .savefig "neutron_flux_v_energy.png", .showFigure],
       none) := by
  unfold plot_shell_results extract_flux_spectrum
  simp only [hfile, htally, hfilters, List.getElem?_cons_zero,
    SPFilter.bins_col0]
  rfl

/-- Witness for C4 at the sample filesystem. -/
theorem plot_shell_results_pipeline_witness :
    plot_shell_results sample_fs =
      ([.openFile "statepoint.10.h5", .getTallyByName "Flux spectrum",
        .loglogStep [1, 2] [5, 7] "steps-post",
        .setXLabel "Energy [eV]", .setYLabel "Flux [neutron-cm/source]",
        .gridBoth, .savefig "neutron_flux_v_energy.png", .showFigure],
       none) :=
  plot_shell_results_pipeline sample_fs sample_statepoint sample_tally
    [(1, 2), (2, 4)] [] rfl rfl rfl

/-- Claim C9: the plotter does no statistical estimation of its own: under the
hypotheses of C4, the flux values extract_flux_spectrum returns are exactly
the raveled (flattened, otherwise unchanged) mean values stored in the
Flux spectrum tally, and the energies are exactly the lower edges of its
energy-filter bins. -/
theorem extract_flux_spectrum_no_estimation (fs : FileSystem)
    (sp : StatePointFile) (t : SPTally) (bins : List (ℚ × ℚ))
    (rest : List SPFilter)
    (hfile : lookupFile fs "statepoint.10.h5" = some sp)
    (htally : get_tally sp "Flux spectrum" = some t)
    (hfilters : t.filters = SPFilter.energy bins :: rest) :
    (extract_flux_spectrum fs).2 =
      .ok (bins.map fun b => b.1, ravel t.mean) ∧
    ravel t.mean = t.mean.flatten := by
  unfold extract_flux_spectrum
  simp only [hfile, htally, hfilters, List.getElem?_cons_zero,
    SPFilter.bins_col0]
  exact ⟨trivial, rfl⟩

/-- Witness for C9 at the sample filesystem. -/
theorem extract_flux_spectrum_no_estimation_witness :
    (extract_flux_spectrum sample_fs).2 = .ok ([1, 2], [5, 7]) ∧
    ravel sample_tally.mean = sample_tally.mean.flatten :=
  extract_flux_spectrum_no_estimation sample_fs sample_statepoint sample_tally
    [(1, 2), (2, 4)] [] rfl rfl rfl

/-- Claim C10: extract_flux_spectrum consults only the fixed file name
statepoint.10.h5 — filesystems agreeing on that one name are
indistinguishable to it — and it raises, leaving plot_shell_results without
any file written, whenever that file is absent or holds no tally named
Flux spectrum. -/
theorem extract_flux_spectrum_fixed_file (fs fs' : FileSystem)
    (sp : StatePointFile) :
    (lookupFile fs "statepoint.10.h5" = lookupFile fs' "statepoint.10.h5" →
      extract_flux_spectrum fs = extract_flux_spectrum fs') ∧
    (lookupFile fs "statepoint.10.h5" = none →
      (extract_flux_spectrum fs).2 =
        .error "FileNotFoundError: statepoint.10.h5" ∧
      plot_writes fs = []) ∧
    (lookupFile fs "statepoint.10.h5" = some sp →
      get_tally sp "Flux spectrum" = none →
      (extract_flux_spectrum fs).2 =
        .error "LookupError: no tally with name Flux spectrum" ∧
      plot_writes fs = []) := by
  refine ⟨fun h => ?_, fun h => ?_, fun h1 h2 => ?_⟩
  · unfold extract_flux_spectrum
    rw [h]
  · have he : extract_flux_spectrum fs =
        ([.openFile "statepoint.10.h5"],
         .error "FileNotFoundError: statepoint.10.h5") := by
      unfold extract_flux_spectrum
      rw [h]
    refine ⟨by rw [he], ?_⟩
    unfold plot_writes plot_shell_results
    rw [he]
    rfl
  · have he : extract_flux_spectrum fs =
        ([.openFile "statepoint.10.h5", .getTallyByName "Flux spectrum"],
         .error "LookupError: no tally with name Flux spectrum") := by
      unfold extract_flux_spectrum
      simp only [h1, h2]
    refine ⟨by rw [he], ?_⟩
    unfold plot_writes plot_shell_results
    rw [he]
    rfl

/-- Witness for C10: the missing-file error on the empty filesystem, the
missing-tally error on a statepoint without the tally, and insensitivity to a
file under any other name. -/
theorem extract_flux_spectrum_fixed_file_witness :
    ((extract_flux_spectrum ([] : FileSystem)).2 =
        .error "FileNotFoundError: statepoint.10.h5" ∧
      plot_writes ([] : FileSystem) = []) ∧
    ((extract_flux_spectrum sample_fs_no_tally).2 =
        .error "LookupError: no tally with name Flux spectrum" ∧
      plot_writes sample_fs_no_tally = []) ∧
    extract_flux_spectrum sample_fs_other_name =
      extract_flux_spectrum ([] : FileSystem) :=
  ⟨(extract_flux_spectrum_fixed_file [] [] sample_statepoint_empty).2.1 rfl,
   (extract_flux_spectrum_fixed_file sample_fs_no_tally []
      sample_statepoint_empty).2.2 rfl rfl,
   (extract_flux_spectrum_fixed_file sample_fs_other_name []
      sample_statepoint_empty).1 rfl⟩

/-- In every filesystem, the plotting script reads exactly the fixed
statepoint file. -/
theorem plot_reads_eq (fs : FileSystem) :
    plot_reads fs = ["statepoint.10.h5"] := by
  unfold plot_reads plot_shell_results extract_flux_spectrum
  cases lookupFile fs "statepoint.10.h5" with
  | none => rfl
  | some sp =>
    dsimp only
    cases get_tally sp "Flux spectrum" with
    | none => rfl
    | some t =>
      dsimp only
      cases t.filters[0]? with
      | none => rfl
      | some f0 =>
        dsimp only
        cases f0 with
        | energy bins => rfl
        | cell ids => rfl

/-- In every filesystem, the plotting script writes at most its own image
file. -/
theorem plot_writes_sub (fs : FileSystem) :
    plot_writes fs = [] ∨ plot_writes fs = ["neutron_flux_v_energy.png"] := by
  unfold plot_writes plot_shell_results extract_flux_spectrum
  cases lookupFile fs "statepoint.10.h5" with
  | none => exact Or.inl rfl
  | some sp =>
    dsimp only
    cases get_tally sp "Flux spectrum" with
    | none => exact Or.inl rfl
    | some t =>
      dsimp only
      cases t.filters[0]? with
      | none => exact Or.inl rfl
      | some f0 =>
        dsimp only
        cases f0 with
        | energy bins => exact Or.inr rfl
        | cell ids => exact Or.inl rfl

/-- Claim C8: the two scripts share nothing beyond the filesystem handoff of
the externally produced statepoint: the model-builder script performs no file
operation at all, the plotter reads only statepoint.10.h5 and writes at most
its own image file, so no file written by either script is ever read by the
other. -/
theorem scripts_share_no_files (fs : FileSystem) :
    build_reads = [] ∧ build_writes = [] ∧
    plot_reads fs = ["statepoint.10.h5"] ∧
    (∀ f ∈ plot_writes fs, f = "neutron_flux_v_energy.png") ∧
    (∀ f ∈ plot_writes fs, f ∉ plot_reads fs) ∧
    (∀ f ∈ plot_reads fs, f ∉ build_writes) ∧
    (∀ f ∈ build_reads, f ∉ plot_writes fs) := by
  refine ⟨rfl, rfl, plot_reads_eq fs, ?_, ?_, ?_, ?_⟩
  · intro f hf
    rcases plot_writes_sub fs with h | h <;> rw [h] at hf
    · exact absurd hf (List.not_mem_nil f)
    · simpa using hf
  · intro f hf
    rcases plot_writes_sub fs with h | h <;> rw [h] at hf
    · exact absurd hf (List.not_mem_nil f)
    · rw [plot_reads_eq fs]
      simp_all
  · intro f hf
    exact List.not_mem_nil f
  · intro f hf
    exact absurd hf (List.not_mem_nil f)

/-- Witness for C8 at the sample filesystem: the plotter reads the statepoint,
which the builder never writes, and its written image file is not among its
reads. -/
theorem scripts_share_no_files_witness :
    plot_reads sample_fs = ["statepoint.10.h5"] ∧
    "statepoint.10.h5" ∉ build_writes ∧
    "neutron_flux_v_energy.png" ∉ plot_reads sample_fs :=
  ⟨(scripts_share_no_files sample_fs).2.2.1,
   (scripts_share_no_files sample_fs).2.2.2.2.2.1 "statepoint.10.h5"
     (by decide),
   (scripts_share_no_files sample_fs).2.2.2.2.1 "neutron_flux_v_energy.png"
     (by decide)⟩

end OpenMCStudy
